import Mathlib

/-!
Shallow embedding of the pyoutlineapi client core
(`pyoutlineapi/client.py` and `pyoutlineapi/models.py`).

The embedding models:
- JSON values as an inductive `Json` type; a Python dict is a list of
  key/value pairs (Python dicts preserve insertion order and have unique
  keys, but uniqueness is not needed by any theorem below).
- The Python exceptions that the client raises or catches as the
  inductive `Exc`.  The file `pyoutlineapi/exceptions.py` is not part of
  the sources; its classes are modelled from the spec and the unit tests
  (`tests/test_exceptions.py`), see `isAPIError`.
- One HTTP exchange as an `HttpResult`: either the underlying
  `requests.Session.request` call raises a `requests.RequestException`
  (`netFail`), or it yields a `Response` with a status code, an optional
  parsed JSON body (`none` models a body on which `response.json()`
  raises `requests.exceptions.JSONDecodeError`) and a raw text.
- Each facade operation as a function from its arguments and the
  `HttpResult` supplied by the server to the list of requests actually
  dispatched (`SentRequest`) paired with the Python-level outcome
  (`Except Exc _`).

Pydantic v2 semantics relevant here: a field annotated `Optional[T]`
without a default is *required*; `SecretStr` fields are rendered as
`**********` (empty secrets as the empty string) by `model_dump_json`;
lax primitive coercions (e.g. numeric strings to int) are not modelled —
every claim below concerns correctly-typed, missing, or out-of-range
fields only.  The exact texts of pydantic/requests error messages are
schematic; the message prefixes of the client itself are taken verbatim from the
source.  The bodies `{"port": port}` and `{"bytes": limit}` are modelled
with integer payloads (the `port: ServerPort | int` union admits a raw
int; a pydantic model instance in those positions would not be JSON
serializable).
-/

namespace PyOutline

inductive Json where
  | null
  | bool (b : Bool)
  | int (n : Int)
  | str (s : String)
  | arr (elems : List Json)
  | obj (fields : List (String × Json))

def getField (fields : List (String × Json)) (key : String) : Option Json :=
  (fields.find? (fun kv => kv.1 == key)).map (fun kv => kv.2)

def getStr (fields : List (String × Json)) (key : String) : Option String :=
  match getField fields key with
  | some (Json.str s) => some s
  | _ => none

def getInt (fields : List (String × Json)) (key : String) : Option Int :=
  match getField fields key with
  | some (Json.int n) => some n
  | _ => none

def getBool (fields : List (String × Json)) (key : String) : Option Bool :=
  match getField fields key with
  | some (Json.bool b) => some b
  | _ => none

/-- The Python exceptions occurring in the client.
`requestException` is `requests.RequestException` (which
`response.raise_for_status()` raises for a 4xx/5xx status);
`jsonDecodeError` is `requests.exceptions.JSONDecodeError`, a subclass of
`requests.RequestException` in the requests versions this code targets;
`typeError` is the builtin `TypeError` raised by `model(**x)` when `x` is
not a mapping; `apiError`, `httpError`, `validationError` are the
`pyoutlineapi.exceptions` classes (`APIError`, `HTTPError`,
`ValidationError`). -/
inductive Exc where
  | requestException (msg : String)
  | jsonDecodeError (msg : String)
  | typeError (msg : String)
  | keyError (msg : String)
  | pydanticValidationError (msg : String)
  | apiError (msg : String)
  | httpError (status : Int) (msg : String)
  | validationError (msg : String)
deriving Repr, DecidableEq

/-- Class test for `except (requests.RequestException, ...)`:
`JSONDecodeError` is a subclass of `RequestException`. -/
def isRequestsRequestException : Exc → Bool
  | Exc.requestException _ => true
  | Exc.jsonDecodeError _ => true
  | _ => false

/-- Modelled from the spec: `pyoutlineapi/exceptions.py` is absent from
the sources; per the error taxonomy of the spec, `HTTPStatusError`
(`HTTPError`) is "a refinement of a general API-failure kind", so an
`except APIError` clause also catches `HTTPError`.  (No code path below
ever raises `httpError`, so this choice is inert.) -/
def isAPIError : Exc → Bool
  | Exc.apiError _ => true
  | Exc.httpError _ _ => true
  | _ => false

def isPyHTTPError : Exc → Bool
  | Exc.httpError _ _ => true
  | _ => false

def isPydanticValidationError : Exc → Bool
  | Exc.pydanticValidationError _ => true
  | _ => false

def isKeyError : Exc → Bool
  | Exc.keyError _ => true
  | _ => false

def isValidationError : Exc → Bool
  | Exc.validationError _ => true
  | _ => false

/-- The closed error taxonomy of the spec: `RequestFailed`/`APIError`,
`HTTPStatusError` and `ValidationFailed`. -/
def inTaxonomy (e : Exc) : Bool :=
  isAPIError e || isPyHTTPError e || isValidationError e

/-- `str(exception)`, as interpolated by the `f"... {e}"` messages of the client
messages.  The renderings of the custom classes follow
`tests/test_exceptions.py`. -/
def excStr : Exc → String
  | Exc.requestException m => m
  | Exc.jsonDecodeError m => m
  | Exc.typeError m => m
  | Exc.keyError m => m
  | Exc.pydanticValidationError m => m
  | Exc.apiError m => m
  | Exc.httpError c m => "HTTP error occurred: " ++ toString c ++ " - " ++ m
  | Exc.validationError m => "Validation error occurred: " ++ m

structure Response where
  status : Nat
  body : Option Json
  text : String

inductive HttpResult where
  | netFail (msg : String)
  | response (r : Response)

structure SentRequest where
  method : String
  url : String
  jsonData : Option Json

/-- `try ... except E as e: raise handler(e)` around an already-evaluated
body: when the body raised `e` and the class test `p` accepts `e`, the
exception built by the handler replaces it, otherwise `e` propagates unchanged. -/
def catching (p : Exc → Bool) (handler : Exc → Exc) :
    Except Exc α → Except Exc α
  | Except.error e => Except.error (if p e then handler e else e)
  | Except.ok a => Except.ok a

def raised : Except Exc α → Option Exc
  | Except.error e => some e
  | Except.ok _ => none

/-- `PyOutlineWrapper._request`: performs the session call and
`response.raise_for_status()`; any `requests.RequestException` (network
failure or 4xx/5xx status) is re-raised as
`APIError(f"Request to {url} failed: {exception}")`.  The dispatched
request is returned alongside the outcome. -/
def _request (apiUrl method endpoint : String) (jsonData : Option Json)
    (outcome : HttpResult) : SentRequest × Except Exc Response :=
  let url := apiUrl ++ "/" ++ endpoint
  let sent : SentRequest := { method := method, url := url, jsonData := jsonData }
  match outcome with
  | HttpResult.netFail m =>
      (sent, Except.error (Exc.apiError ("Request to " ++ url ++ " failed: " ++ m)))
  | HttpResult.response r =>
      (sent,
       if 400 ≤ r.status ∧ r.status < 600 then
         Except.error (Exc.apiError
           ("Request to " ++ url ++ " failed: " ++ toString r.status ++ " Client Error"))
       else
         Except.ok r)

/-! ## The pydantic models (`pyoutlineapi/models.py`) -/

structure Server where
  name : String
  serverId : String
  metricsEnabled : Bool
  createdTimestampMs : Int
  portForNewAccessKeys : Int
deriving Repr, DecidableEq

/-- Validation of the `Server` model: all five fields required,
`createdTimestampMs ≥ 0`, `portForNewAccessKeys ∈ [1, 65535]`; extra
fields are ignored (pydantic default). -/
def Server.validate (fields : List (String × Json)) : Except String Server :=
  match getStr fields "name", getStr fields "serverId", getBool fields "metricsEnabled",
        getInt fields "createdTimestampMs", getInt fields "portForNewAccessKeys" with
  | some name, some serverId, some metricsEnabled, some created, some port =>
      if created < 0 then
        Except.error "createdTimestampMs: Input should be greater than or equal to 0"
      else if port < 1 ∨ 65535 < port then
        Except.error "portForNewAccessKeys: Input should be in range 1 to 65535"
      else
        Except.ok ⟨name, serverId, metricsEnabled, created, port⟩
  | _, _, _, _, _ => Except.error "Field required"

def Server.model_dump_json (s : Server) : String :=
  "\x7b\"name\":\"" ++ s.name ++ "\",\"serverId\":\"" ++ s.serverId ++
  "\",\"metricsEnabled\":" ++ (if s.metricsEnabled then "true" else "false") ++
  ",\"createdTimestampMs\":" ++ toString s.createdTimestampMs ++
  ",\"portForNewAccessKeys\":" ++ toString s.portForNewAccessKeys ++ "\x7d"

/-- `DataLimit` model: `bytes ≥ 0`. -/
def DataLimit.validate (bytes : Int) : Except String Int :=
  if bytes < 0 then
    Except.error "bytes: Input should be greater than or equal to 0"
  else
    Except.ok bytes

/-- The `AccessKey` record; `password` and `accessUrl` hold the
underlying secret values of the pydantic `SecretStr` fields. -/
structure AccessKey where
  id : String
  name : String
  password : String
  port : Int
  method : String
  accessUrl : String
deriving Repr, DecidableEq

/-- Validation of the `AccessKey` model: all six fields required,
`password` and `accessUrl` of length ≥ 1, `port ∈ [1, 65535]`. -/
def AccessKey.validate (fields : List (String × Json)) : Except String AccessKey :=
  match getStr fields "id", getStr fields "name", getStr fields "password",
        getInt fields "port", getStr fields "method", getStr fields "accessUrl" with
  | some id, some name, some password, some port, some method, some accessUrl =>
      if password.length < 1 then
        Except.error "password: Value should have at least 1 item"
      else if accessUrl.length < 1 then
        Except.error "accessUrl: Value should have at least 1 item"
      else if port < 1 ∨ 65535 < port then
        Except.error "port: Input should be in range 1 to 65535"
      else
        Except.ok ⟨id, name, password, port, method, accessUrl⟩
  | _, _, _, _, _, _ => Except.error "Field required"

/-- The rendering pydantic gives a `SecretStr`: `**********` when non-empty,
the empty string otherwise. -/
def maskSecret (s : String) : String :=
  if s = "" then "" else "**********"

def AccessKey.model_dump_json (k : AccessKey) : String :=
  "\x7b\"id\":\"" ++ k.id ++ "\",\"name\":\"" ++ k.name ++
  "\",\"password\":\"" ++ maskSecret k.password ++
  "\",\"port\":" ++ toString k.port ++
  ",\"method\":\"" ++ k.method ++
  "\",\"accessUrl\":\"" ++ maskSecret k.accessUrl ++ "\"\x7d"

/-- `ServerPort` model: `port ∈ [1, 65535]`. -/
def ServerPort.validate (port : Int) : Except String Int :=
  if port < 1 ∨ 65535 < port then
    Except.error "port: Input should be in range 1 to 65535"
  else
    Except.ok port

/-- `AccessKeyCreateRequest` applied to the kwargs that remain after the
client filters out `None` arguments.  Under pydantic v2 all three fields
(`name: Optional[str]`, `password: Optional[str]`,
`port: Optional[int] = Field(..., ge=0, le=65535)`) are required, so the
model validates only when every argument was supplied; on success
`model_dump(mode="json")` yields all three fields. -/
def AccessKeyCreateRequest.validate (name password : Option String)
    (port : Option Int) : Except String Json :=
  match name, password, port with
  | some n, some p, some prt =>
      if prt < 0 ∨ 65535 < prt then
        Except.error "port: Input should be in range 0 to 65535"
      else
        Except.ok (Json.obj [("name", Json.str n), ("password", Json.str p),
          ("port", Json.int prt)])
  | _, _, _ => Except.error "Field required"

/-- Validation of the `AccessKeyList` model: a required `accessKeys`
field holding a list of `AccessKey` payloads, validated in order. -/
def AccessKeyList.validateItems (elems : List Json) : Except String (List AccessKey) :=
  match elems with
  | [] => Except.ok []
  | Json.obj fields :: rest =>
      match AccessKey.validate fields, AccessKeyList.validateItems rest with
      | Except.ok k, Except.ok ks => Except.ok (k :: ks)
      | Except.error m, _ => Except.error m
      | _, Except.error m => Except.error m
  | _ :: _ => Except.error "accessKeys: Input should be a valid dictionary"

def AccessKeyList.validate (fields : List (String × Json)) :
    Except String (List AccessKey) :=
  match getField fields "accessKeys" with
  | some (Json.arr elems) => AccessKeyList.validateItems elems
  | some _ => Except.error "accessKeys: Input should be a valid list"
  | none => Except.error "Field required"

def AccessKeyList.model_dump_json (ks : List AccessKey) : String :=
  "\x7b\"accessKeys\":[" ++
  String.intercalate "," (ks.map AccessKey.model_dump_json) ++ "]\x7d"

/-- The mapping-level validation of the `Metrics` model on an
already-typed mapping: the pydantic `Dict[constr(min_length=1), int]`
rejects empty keys, and the `validate_bytes_transferred` field validator
rejects the first negative value; a valid mapping is returned unchanged. -/
def Metrics.validateMapping (m : List (String × Int)) :
    Except String (List (String × Int)) :=
  if m.any (fun kv => decide (kv.1.length < 1)) then
    Except.error "bytesTransferredByUserId: key should have at least 1 character"
  else
    match m.find? (fun kv => decide (kv.2 < 0)) with
    | some kv =>
        Except.error ("Transferred bytes for user " ++ kv.1 ++ " must be non-negative")
    | none => Except.ok m

def Metrics.readEntries : List (String × Json) → Option (List (String × Int))
  | [] => some []
  | (k, Json.int n) :: rest =>
      match Metrics.readEntries rest with
      | some m => some ((k, n) :: m)
      | none => none
  | _ :: _ => none

/-- Validation of the `Metrics` model from a JSON object. -/
def Metrics.validate (fields : List (String × Json)) :
    Except String (List (String × Int)) :=
  match getField fields "bytesTransferredByUserId" with
  | some (Json.obj entries) =>
      match Metrics.readEntries entries with
      | some m => Metrics.validateMapping m
      | none => Except.error "bytesTransferredByUserId: Input should be a valid integer"
  | some _ => Except.error "bytesTransferredByUserId: Input should be a valid dictionary"
  | none => Except.error "Field required"

def Metrics.model_dump_json (m : List (String × Int)) : String :=
  "\x7b\"bytesTransferredByUserId\":\x7b" ++
  String.intercalate ","
    (m.map (fun kv => "\"" ++ kv.1 ++ "\":" ++ toString kv.2)) ++ "\x7d\x7d"

/-! ## The operation facade (`pyoutlineapi/client.py`) -/

/-- What a facade operation hands back on success: the structured model
value, or its canonical JSON text when the client was constructed with
`json_format=True`. -/
inductive ApiResult (α : Type) where
  | value (a : α)
  | text (s : String)

/-- `PyOutlineWrapper._parse_response`: `model(**response.json())`, then
`model_dump_json()` when `json_format` is set.  `response.json()` on a
malformed body raises `JSONDecodeError`; `model(**x)` on a non-mapping
`x` raises `TypeError`; neither is a `PydanticValidationError`, so the
local `except` converts only schema violations into `ValidationError`. -/
def _parse_response (jsonFormat : Bool) (validate : List (String × Json) → Except String α)
    (render : α → String) (r : Response) : Except Exc (ApiResult α) :=
  match r.body with
  | none => Except.error (Exc.jsonDecodeError "Expecting value: line 1 column 1 (char 0)")
  | some (Json.obj fields) =>
      match validate fields with
      | Except.error m => Except.error (Exc.validationError ("Validation error: " ++ m))
      | Except.ok a =>
          Except.ok (if jsonFormat then ApiResult.text (render a) else ApiResult.value a)
  | some _ => Except.error (Exc.typeError "argument after ** must be a mapping")

/-- `PyOutlineWrapper.get_server_info`. -/
def get_server_info (apiUrl : String) (jsonFormat : Bool) (outcome : HttpResult) :
    List SentRequest × Except Exc (ApiResult Server) :=
  let (req, res) := _request apiUrl "GET" "server" none outcome
  ([req],
   catching isPydanticValidationError
     (fun e => Exc.validationError ("Failed to get server info: " ++ excStr e))
     (res.bind (fun r => _parse_response jsonFormat Server.validate Server.model_dump_json r)))

/-- `PyOutlineWrapper.create_access_key`: build the kwargs dict from the
non-`None` arguments; validate through `AccessKeyCreateRequest` when any
argument was given, else send no body; require a 201 status; parse the
body as an `AccessKey`.  The surrounding `except (PydanticValidationError,
KeyError, requests.RequestException)` re-raises as `ValidationError`. -/
def create_access_key (apiUrl : String) (jsonFormat : Bool)
    (name password : Option String) (port : Option Int) (outcome : HttpResult) :
    List SentRequest × Except Exc (ApiResult AccessKey) :=
  let catchC := catching
    (fun e => isPydanticValidationError e || isKeyError e || isRequestsRequestException e)
    (fun e => Exc.validationError ("Failed to create access key: " ++ excStr e))
  let handle : Response → Except Exc (ApiResult AccessKey) := fun r =>
    if r.status == 201 then
      _parse_response jsonFormat AccessKey.validate AccessKey.model_dump_json r
    else
      Except.error (Exc.validationError
        ("Failed to create access key: " ++ toString r.status ++ " - " ++ r.text))
  if name.isSome || password.isSome || port.isSome then
    match AccessKeyCreateRequest.validate name password port with
    | Except.error m =>
        ([], catchC (Except.error (Exc.pydanticValidationError m)))
    | Except.ok body =>
        let (req, res) := _request apiUrl "POST" "access-keys" (some body) outcome
        ([req], catchC (res.bind handle))
  else
    let (req, res) := _request apiUrl "POST" "access-keys" none outcome
    ([req], catchC (res.bind handle))

/-- `PyOutlineWrapper.get_access_keys`. -/
def get_access_keys (apiUrl : String) (jsonFormat : Bool) (outcome : HttpResult) :
    List SentRequest × Except Exc (ApiResult (List AccessKey)) :=
  let (req, res) := _request apiUrl "GET" "access-keys" none outcome
  ([req],
   catching isPydanticValidationError
     (fun e => Exc.validationError ("Failed to get access keys: " ++ excStr e))
     (res.bind (fun r =>
        _parse_response jsonFormat AccessKeyList.validate AccessKeyList.model_dump_json r)))

/-- `PyOutlineWrapper.delete_access_key`: returns `status == 204`; the
local `except HTTPError` wraps only the custom `HTTPError` class, which
no inner path raises. -/
def delete_access_key (apiUrl keyId : String) (outcome : HttpResult) :
    List SentRequest × Except Exc Bool :=
  let (req, res) := _request apiUrl "DELETE" ("access-keys/" ++ keyId) none outcome
  ([req],
   catching isPyHTTPError
     (fun e => Exc.apiError ("Failed to delete access key with ID " ++ keyId ++ ": " ++ excStr e))
     (res.map (fun r => r.status == 204)))

/-- `PyOutlineWrapper.update_server_port`: sends `{"port": port}` with no
prior validation; raises `APIError` on an observed 409 (a branch the
`raise_for_status` inside `_request` makes unreachable); returns
`status == 204`; the `except (PydanticValidationError, APIError)` wraps
either into `APIError("Failed to update server port: ...")`. -/
def update_server_port (apiUrl : String) (port : Int) (outcome : HttpResult) :
    List SentRequest × Except Exc Bool :=
  let (req, res) := _request apiUrl "PUT" "server/port-for-new-access-keys"
    (some (Json.obj [("port", Json.int port)])) outcome
  ([req],
   catching (fun e => isPydanticValidationError e || isAPIError e)
     (fun e => Exc.apiError ("Failed to update server port: " ++ excStr e))
     (res.bind (fun r =>
        if r.status == 409 then
          Except.error (Exc.apiError ("Port " ++ toString port ++ " is already in use"))
        else
          Except.ok (r.status == 204))))

/-- `PyOutlineWrapper.set_access_key_data_limit`: sends `{"bytes": limit}`
and returns `status == 204`. -/
def set_access_key_data_limit (apiUrl keyId : String) (limit : Int) (outcome : HttpResult) :
    List SentRequest × Except Exc Bool :=
  let (req, res) := _request apiUrl "PUT" ("access-keys/" ++ keyId ++ "/data-limit")
    (some (Json.obj [("bytes", Json.int limit)])) outcome
  ([req],
   catching (fun e => isPydanticValidationError e || isAPIError e)
     (fun e => Exc.apiError
       ("Failed to set data limit for access key with ID " ++ keyId ++ ": " ++ excStr e))
     (res.map (fun r => r.status == 204)))

/-- `PyOutlineWrapper.get_metrics`. -/
def get_metrics (apiUrl : String) (jsonFormat : Bool) (outcome : HttpResult) :
    List SentRequest × Except Exc (ApiResult (List (String × Int))) :=
  let (req, res) := _request apiUrl "GET" "metrics/transfer" none outcome
  ([req],
   catching isPydanticValidationError
     (fun e => Exc.validationError ("Failed to get metrics: " ++ excStr e))
     (res.bind (fun r =>
        _parse_response jsonFormat Metrics.validate Metrics.model_dump_json r)))

/-! ## Helper notions and characterization lemmas -/

/-- The response body of the outcome (when there is a response at all) is
well-formed JSON and a JSON object. -/
def jsonWellFormed : HttpResult → Prop
  | HttpResult.netFail _ => True
  | HttpResult.response r => ∃ fs, r.body = some (Json.obj fs)

/-- `sub` occurs as a substring of `s` (witnessed by a decomposition). -/
def containsStr (s sub : String) : Prop :=
  ∃ a b, s = a ++ sub ++ b

theorem raised_catching (p : Exc → Bool) (h : Exc → Exc) (x : Except Exc α) :
    raised (catching p h x) = (raised x).map (fun e => if p e then h e else e) := by
  cases x <;> rfl

/-- A well-typed `AccessKey` JSON object. -/
def accessKeyObj (id name password : String) (port : Int) (method accessUrl : String) : Json :=
  Json.obj [("id", Json.str id), ("name", Json.str name), ("password", Json.str password),
    ("port", Json.int port), ("method", Json.str method), ("accessUrl", Json.str accessUrl)]

/-- A well-typed `Server` JSON object. -/
def serverObj (name serverId : String) (metricsEnabled : Bool) (created port : Int) : Json :=
  Json.obj [("name", Json.str name), ("serverId", Json.str serverId),
    ("metricsEnabled", Json.bool metricsEnabled),
    ("createdTimestampMs", Json.int created), ("portForNewAccessKeys", Json.int port)]

theorem accessKey_validate_fields (id name password : String) (port : Int)
    (method accessUrl : String) :
    AccessKey.validate [("id", Json.str id), ("name", Json.str name),
        ("password", Json.str password), ("port", Json.int port),
        ("method", Json.str method), ("accessUrl", Json.str accessUrl)] =
      (if password.length < 1 then
        Except.error "password: Value should have at least 1 item"
      else if accessUrl.length < 1 then
        Except.error "accessUrl: Value should have at least 1 item"
      else if port < 1 ∨ 65535 < port then
        Except.error "port: Input should be in range 1 to 65535"
      else
        Except.ok ⟨id, name, password, port, method, accessUrl⟩) := rfl

theorem server_validate_fields (name serverId : String) (metricsEnabled : Bool)
    (created port : Int) :
    Server.validate [("name", Json.str name), ("serverId", Json.str serverId),
        ("metricsEnabled", Json.bool metricsEnabled),
        ("createdTimestampMs", Json.int created), ("portForNewAccessKeys", Json.int port)] =
      (if created < 0 then
        Except.error "createdTimestampMs: Input should be greater than or equal to 0"
      else if port < 1 ∨ 65535 < port then
        Except.error "portForNewAccessKeys: Input should be in range 1 to 65535"
      else
        Except.ok ⟨name, serverId, metricsEnabled, created, port⟩) := rfl

/-! ## Claims -/

/-- C1 (counterexample): on a 409 response, `update_server_port` does
not raise an `HTTPStatusError` with message "port already in use": the
`raise_for_status` inside `_request` turns the 409 into the generic
transport-failure `APIError` before the dedicated port-conflict branch
can run, so the raised error is an `APIError` whose message is the
wrapped generic transport message — the same exception class as a
connection-level failure. -/
theorem claim_C1_counterexample :
    raised (update_server_port "https://h" 443
        (HttpResult.response ⟨409, none, "Conflict"⟩)).2 =
      some (Exc.apiError
        "Failed to update server port: Request to https://h/server/port-for-new-access-keys failed: 409 Client Error") ∧
    isPyHTTPError (Exc.apiError
        "Failed to update server port: Request to https://h/server/port-for-new-access-keys failed: 409 Client Error") = false := by
  exact ⟨rfl, rfl⟩

/-- C1 (amended): for every call to `update_server_port` where the
server answers with status 409, the operation raises an `APIError` — the
same exception class used for connection-level transport failures, not a
distinct `HTTPStatusError`, and not with the message "port already in
use": the `raise_for_status` inside `_request` converts the 409 into `APIError`
before the port-conflict branch is reached, and the surrounding `except`
re-wraps it as `APIError("Failed to update server port: ...")`. -/
theorem claim_C1 (apiUrl : String) (port : Int) (r : Response) (h : r.status = 409) :
    ∃ m, raised (update_server_port apiUrl port (HttpResult.response r)).2 =
        some (Exc.apiError m) ∧
      isPyHTTPError (Exc.apiError m) = false := by
  refine ⟨"Failed to update server port: " ++
    ("Request to " ++ (apiUrl ++ "/" ++ "server/port-for-new-access-keys") ++
      " failed: " ++ (toString r.status ++ " Client Error")), ?_, rfl⟩
  simp [update_server_port, _request, h, isAPIError, isPydanticValidationError,
    excStr, catching, raised, Except.bind, String.append_assoc]

theorem claim_C1_witness :
    ∃ m, raised (update_server_port "https://h" 443
        (HttpResult.response ⟨409, none, "Conflict"⟩)).2 =
        some (Exc.apiError m) ∧
      isPyHTTPError (Exc.apiError m) = false :=
  claim_C1 "https://h" 443 ⟨409, none, "Conflict"⟩ rfl

/-- C2 (counterexample): `delete_access_key` on a 200 response returns
`False` silently instead of raising an error: `raise_for_status` only
raises for 4xx/5xx, and the operation then returns `status == 204`
without surfacing any other status. -/
theorem claim_C2_counterexample :
    (delete_access_key "https://h" "key_id"
      (HttpResult.response ⟨200, none, ""⟩)).2 = Except.ok false := rfl

/-- C2 (amended): each boolean-returning operation (`delete_access_key`,
`update_server_port`, `set_access_key_data_limit`) returns `true` iff
the observed status is the documented 204; every 4xx/5xx status
(including 404 on delete and 409 on set-server-port) raises an
`APIError`; but a non-204 status outside [400, 600) is returned as a
silent `false`, not an error. -/
theorem claim_C2 (apiUrl keyId : String) (port limit : Int) (r : Response) :
    (r.status < 400 ∨ 600 ≤ r.status →
      (delete_access_key apiUrl keyId (HttpResult.response r)).2 =
          Except.ok (r.status == 204) ∧
      (update_server_port apiUrl port (HttpResult.response r)).2 =
          Except.ok (r.status == 204) ∧
      (set_access_key_data_limit apiUrl keyId limit (HttpResult.response r)).2 =
          Except.ok (r.status == 204)) ∧
    (400 ≤ r.status → r.status < 600 →
      (∃ m, raised (delete_access_key apiUrl keyId (HttpResult.response r)).2 =
          some (Exc.apiError m)) ∧
      (∃ m, raised (update_server_port apiUrl port (HttpResult.response r)).2 =
          some (Exc.apiError m)) ∧
      (∃ m, raised (set_access_key_data_limit apiUrl keyId limit
          (HttpResult.response r)).2 = some (Exc.apiError m))) := by
  constructor
  · intro h
    have hcond : ¬(400 ≤ r.status ∧ r.status < 600) := by omega
    have h409 : r.status ≠ 409 := by omega
    refine ⟨?_, ?_, ?_⟩ <;>
      simp [delete_access_key, update_server_port, set_access_key_data_limit,
        _request, catching, raised, Except.bind, Except.map, hcond, h409]
  · intro h1 h2
    have hcond : 400 ≤ r.status ∧ r.status < 600 := ⟨h1, h2⟩
    refine ⟨⟨"Request to " ++ (apiUrl ++ "/" ++ ("access-keys/" ++ keyId)) ++
        " failed: " ++ toString r.status ++ " Client Error", ?_⟩,
      ⟨"Failed to update server port: " ++
        ("Request to " ++ (apiUrl ++ "/" ++ "server/port-for-new-access-keys") ++
          " failed: " ++ toString r.status ++ " Client Error"), ?_⟩,
      ⟨"Failed to set data limit for access key with ID " ++ keyId ++ ": " ++
        ("Request to " ++ (apiUrl ++ "/" ++ ("access-keys/" ++ keyId ++ "/data-limit")) ++
          " failed: " ++ toString r.status ++ " Client Error"), ?_⟩⟩ <;>
      simp [delete_access_key, update_server_port, set_access_key_data_limit,
        _request, catching, raised, Except.bind, Except.map, hcond,
        isPyHTTPError, isAPIError, isPydanticValidationError, excStr]

theorem claim_C2_witness :
    (delete_access_key "https://h" "k" (HttpResult.response ⟨204, none, ""⟩)).2 =
        Except.ok true ∧
    (∃ m, raised (delete_access_key "https://h" "k"
        (HttpResult.response ⟨404, none, "Not Found"⟩)).2 = some (Exc.apiError m)) := by
  constructor
  · exact ((claim_C2 "https://h" "k" 1 0 ⟨204, none, ""⟩).1 (by left; decide)).1
  · exact ((claim_C2 "https://h" "k" 1 0 ⟨404, none, "Not Found"⟩).2
      (by decide) (by decide)).1

theorem aux_taxonomy_get {α : Type} (apiUrl endpoint pre : String) (jf : Bool)
    (validate : List (String × Json) → Except String α) (render : α → String)
    (outcome : HttpResult) (h : jsonWellFormed outcome) :
    ∀ e, raised (catching isPydanticValidationError
        (fun e => Exc.validationError (pre ++ excStr e))
        (((_request apiUrl "GET" endpoint none outcome).2).bind
          (fun r => _parse_response jf validate render r))) = some e →
      inTaxonomy e = true := by
  intro e he
  cases outcome with
  | netFail m =>
      simp [_request, catching, raised, Except.bind, isPydanticValidationError] at he
      simp [← he, inTaxonomy, isAPIError, isPyHTTPError, isValidationError]
  | response r =>
      obtain ⟨fs, hb⟩ := h
      by_cases hs : 400 ≤ r.status ∧ r.status < 600
      · simp [_request, catching, raised, Except.bind, hs, isPydanticValidationError] at he
        simp [← he, inTaxonomy, isAPIError, isPyHTTPError, isValidationError]
      · rcases hv : validate fs with m | a
        · simp [_request, catching, raised, Except.bind, hs, _parse_response, hb, hv,
            isPydanticValidationError] at he
          simp [← he, inTaxonomy, isAPIError, isPyHTTPError, isValidationError]
        · simp [_request, catching, raised, Except.bind, hs, _parse_response, hb, hv] at he

theorem aux_taxonomy_delete (apiUrl keyId : String) (outcome : HttpResult) :
    ∀ e, raised (delete_access_key apiUrl keyId outcome).2 = some e →
      inTaxonomy e = true := by
  intro e he
  cases outcome with
  | netFail m =>
      simp [delete_access_key, _request, catching, raised, Except.map, isPyHTTPError] at he
      simp [← he, inTaxonomy, isAPIError, isPyHTTPError, isValidationError]
  | response r =>
      by_cases hs : 400 ≤ r.status ∧ r.status < 600
      · simp [delete_access_key, _request, catching, raised, Except.map, hs,
          isPyHTTPError] at he
        simp [← he, inTaxonomy, isAPIError, isPyHTTPError, isValidationError]
      · simp [delete_access_key, _request, catching, raised, Except.map, hs] at he

theorem aux_taxonomy_update (apiUrl : String) (port : Int) (outcome : HttpResult) :
    ∀ e, raised (update_server_port apiUrl port outcome).2 = some e →
      inTaxonomy e = true := by
  intro e he
  cases outcome with
  | netFail m =>
      simp [update_server_port, _request, catching, raised, Except.bind, isAPIError,
        isPydanticValidationError, excStr] at he
      simp [← he, inTaxonomy, isAPIError, isPyHTTPError, isValidationError]
  | response r =>
      by_cases hs : 400 ≤ r.status ∧ r.status < 600
      · simp [update_server_port, _request, catching, raised, Except.bind, hs,
          isAPIError, isPydanticValidationError, excStr] at he
        simp [← he, inTaxonomy, isAPIError, isPyHTTPError, isValidationError]
      · have h409 : r.status ≠ 409 := by omega
        simp [update_server_port, _request, catching, raised, Except.bind, hs, h409] at he

theorem aux_taxonomy_set_limit (apiUrl keyId : String) (limit : Int)
    (outcome : HttpResult) :
    ∀ e, raised (set_access_key_data_limit apiUrl keyId limit outcome).2 = some e →
      inTaxonomy e = true := by
  intro e he
  cases outcome with
  | netFail m =>
      simp [set_access_key_data_limit, _request, catching, raised, Except.map, isAPIError,
        isPydanticValidationError, excStr] at he
      simp [← he, inTaxonomy, isAPIError, isPyHTTPError, isValidationError]
  | response r =>
      by_cases hs : 400 ≤ r.status ∧ r.status < 600
      · simp [set_access_key_data_limit, _request, catching, raised, Except.map, hs,
          isAPIError, isPydanticValidationError, excStr] at he
        simp [← he, inTaxonomy, isAPIError, isPyHTTPError, isValidationError]
      · simp [set_access_key_data_limit, _request, catching, raised, Except.map, hs] at he

theorem aux_taxonomy_create (apiUrl : String) (jf : Bool) (name password : Option String)
    (portArg : Option Int) (outcome : HttpResult) (h : jsonWellFormed outcome) :
    ∀ e, raised (create_access_key apiUrl jf name password portArg outcome).2 = some e →
      inTaxonomy e = true := by
  have hdisp : ∀ (jd : Option Json) e,
      raised (catching
        (fun e => isPydanticValidationError e || isKeyError e || isRequestsRequestException e)
        (fun e => Exc.validationError ("Failed to create access key: " ++ excStr e))
        (((_request apiUrl "POST" "access-keys" jd outcome).2).bind
          (fun r => if r.status == 201 then
              _parse_response jf AccessKey.validate AccessKey.model_dump_json r
            else
              Except.error (Exc.validationError
                ("Failed to create access key: " ++ toString r.status ++ " - " ++ r.text))))) =
          some e →
      inTaxonomy e = true := by
    intro jd e he
    cases outcome with
    | netFail m =>
        simp [_request, catching, raised, Except.bind, isPydanticValidationError,
          isKeyError, isRequestsRequestException] at he
        simp [← he, inTaxonomy, isAPIError, isPyHTTPError, isValidationError]
    | response r =>
        obtain ⟨fs, hb⟩ := h
        by_cases hs : 400 ≤ r.status ∧ r.status < 600
        · simp [_request, catching, raised, Except.bind, hs, isPydanticValidationError,
            isKeyError, isRequestsRequestException] at he
          simp [← he, inTaxonomy, isAPIError, isPyHTTPError, isValidationError]
        · by_cases h201 : r.status = 201
          · rcases hv : AccessKey.validate fs with m | a
            · simp [_request, catching, raised, Except.bind, hs, h201, _parse_response,
                hb, hv, isPydanticValidationError, isKeyError,
                isRequestsRequestException] at he
              simp [← he, inTaxonomy, isAPIError, isPyHTTPError, isValidationError]
            · simp [_request, catching, raised, Except.bind, hs, h201, _parse_response,
                hb, hv] at he
          · simp [_request, catching, raised, Except.bind, hs, h201,
              isPydanticValidationError, isKeyError, isRequestsRequestException] at he
            simp [← he, inTaxonomy, isAPIError, isPyHTTPError, isValidationError]
  intro e he
  by_cases hg : (name.isSome || password.isSome || portArg.isSome) = true
  · rcases hv : AccessKeyCreateRequest.validate name password portArg with m | body
    · simp only [create_access_key, hg, if_true, hv] at he
      simp [catching, raised, isPydanticValidationError, isKeyError,
        isRequestsRequestException, excStr] at he
      simp [← he, inTaxonomy, isAPIError, isPyHTTPError, isValidationError]
    · simp only [create_access_key, hg, if_true, hv] at he
      exact hdisp (some body) e he
  · rw [Bool.not_eq_true] at hg
    simp only [create_access_key, hg, Bool.false_eq_true, if_false] at he
    exact hdisp none e he

/-- C3 (counterexample): `get_metrics` on a 200 response whose body is
not well-formed JSON raises `requests.exceptions.JSONDecodeError` — an
exception outside the closed taxonomy `{APIError, HTTPError,
ValidationError}`: `_parse_response` catches only
`PydanticValidationError`, and `get_metrics` catches only
`PydanticValidationError`, so the decode failure escapes unconverted. -/
theorem claim_C3_counterexample :
    raised (get_metrics "https://h" false
        (HttpResult.response ⟨200, none, "not json"⟩)).2 =
      some (Exc.jsonDecodeError "Expecting value: line 1 column 1 (char 0)") ∧
    inTaxonomy (Exc.jsonDecodeError "Expecting value: line 1 column 1 (char 0)") = false :=
  ⟨rfl, rfl⟩

/-- C3 (amended): for every public operation, every input and every
server interaction in which any response body is well-formed JSON and a
JSON object, the operation either returns a value or raises exactly one
error from the closed taxonomy `{APIError, HTTPError, ValidationError}`,
and no failure is swallowed; but when a parsed response body is
malformed JSON (or not a JSON object), the resulting `JSONDecodeError`
(resp. `TypeError`) escapes the taxonomy on the GET operations. -/
theorem claim_C3 (apiUrl keyId : String) (jf : Bool) (name password : Option String)
    (portArg : Option Int) (port limit : Int) (outcome : HttpResult)
    (h : jsonWellFormed outcome) :
    (∀ e, raised (get_server_info apiUrl jf outcome).2 = some e → inTaxonomy e = true) ∧
    (∀ e, raised (create_access_key apiUrl jf name password portArg outcome).2 = some e →
      inTaxonomy e = true) ∧
    (∀ e, raised (get_access_keys apiUrl jf outcome).2 = some e → inTaxonomy e = true) ∧
    (∀ e, raised (delete_access_key apiUrl keyId outcome).2 = some e → inTaxonomy e = true) ∧
    (∀ e, raised (update_server_port apiUrl port outcome).2 = some e → inTaxonomy e = true) ∧
    (∀ e, raised (set_access_key_data_limit apiUrl keyId limit outcome).2 = some e →
      inTaxonomy e = true) ∧
    (∀ e, raised (get_metrics apiUrl jf outcome).2 = some e → inTaxonomy e = true) :=
  ⟨aux_taxonomy_get apiUrl "server" "Failed to get server info: " jf
      Server.validate Server.model_dump_json outcome h,
   aux_taxonomy_create apiUrl jf name password portArg outcome h,
   aux_taxonomy_get apiUrl "access-keys" "Failed to get access keys: " jf
      AccessKeyList.validate AccessKeyList.model_dump_json outcome h,
   aux_taxonomy_delete apiUrl keyId outcome,
   aux_taxonomy_update apiUrl port outcome,
   aux_taxonomy_set_limit apiUrl keyId limit outcome,
   aux_taxonomy_get apiUrl "metrics/transfer" "Failed to get metrics: " jf
      Metrics.validate Metrics.model_dump_json outcome h⟩

theorem claim_C3_witness :
    (∀ e, raised (get_server_info "https://h" false
        (HttpResult.netFail "connection refused")).2 = some e → inTaxonomy e = true) ∧
    (∀ e, raised (create_access_key "https://h" false none none none
        (HttpResult.netFail "connection refused")).2 = some e → inTaxonomy e = true) ∧
    (∀ e, raised (get_access_keys "https://h" false
        (HttpResult.netFail "connection refused")).2 = some e → inTaxonomy e = true) ∧
    (∀ e, raised (delete_access_key "https://h" "k"
        (HttpResult.netFail "connection refused")).2 = some e → inTaxonomy e = true) ∧
    (∀ e, raised (update_server_port "https://h" 443
        (HttpResult.netFail "connection refused")).2 = some e → inTaxonomy e = true) ∧
    (∀ e, raised (set_access_key_data_limit "https://h" "k" 1000
        (HttpResult.netFail "connection refused")).2 = some e → inTaxonomy e = true) ∧
    (∀ e, raised (get_metrics "https://h" false
        (HttpResult.netFail "connection refused")).2 = some e → inTaxonomy e = true) :=
  claim_C3 "https://h" "k" false none none none 443 1000
    (HttpResult.netFail "connection refused") trivial

/-- C4 (counterexample): `update_server_port` called with port 70000 —
outside [1, 65535] — performs no request-body validation at all: the PUT
request is dispatched to the server carrying `{"port": 70000}` and, on a
204 answer, the call returns `True`; no `ValidationError` is raised
before (or after) the network call. -/
theorem claim_C4_counterexample :
    (update_server_port "https://h" 70000 (HttpResult.response ⟨204, none, ""⟩)).1 =
      [⟨"PUT", "https://h" ++ "/" ++ "server/port-for-new-access-keys",
        some (Json.obj [("port", Json.int 70000)])⟩] ∧
    (update_server_port "https://h" 70000 (HttpResult.response ⟨204, none, ""⟩)).2 =
      Except.ok true :=
  ⟨rfl, rfl⟩

/-- C4 (amended): `update_server_port` never validates its port argument:
for every port value (in range or not) it dispatches the PUT request with
body `{"port": port}` and no raised error is ever a `ValidationError`.
Port-range validation exists only in the `ServerPort` model — which the
operation does not invoke — and in `create_access_key`, whose request
schema does reject an out-of-[0, 65535] port with a `ValidationError`
before any network call is made. -/
theorem claim_C4 :
    (∀ (apiUrl : String) (port : Int) (outcome : HttpResult),
      (update_server_port apiUrl port outcome).1 =
        [⟨"PUT", apiUrl ++ "/" ++ "server/port-for-new-access-keys",
          some (Json.obj [("port", Json.int port)])⟩]) ∧
    (∀ (apiUrl : String) (port : Int) (outcome : HttpResult) (e : Exc),
      raised (update_server_port apiUrl port outcome).2 = some e →
        isValidationError e = false) ∧
    (∀ p : Int, p < 1 ∨ 65535 < p → ∃ m, ServerPort.validate p = Except.error m) ∧
    (∀ (apiUrl : String) (jf : Bool) (n pw : String) (p : Int) (outcome : HttpResult),
      p < 0 ∨ 65535 < p →
        create_access_key apiUrl jf (some n) (some pw) (some p) outcome =
          ([], Except.error (Exc.validationError
            "Failed to create access key: port: Input should be in range 0 to 65535"))) := by
  refine ⟨?_, ?_, ?_, ?_⟩
  · intro apiUrl port outcome
    cases outcome <;> rfl
  · intro apiUrl port outcome e he
    cases outcome with
    | netFail m =>
        simp [update_server_port, _request, catching, raised, Except.bind, isAPIError,
          isPydanticValidationError, excStr] at he
        simp [← he, isValidationError]
    | response r =>
        by_cases hs : 400 ≤ r.status ∧ r.status < 600
        · simp [update_server_port, _request, catching, raised, Except.bind, hs,
            isAPIError, isPydanticValidationError, excStr] at he
          simp [← he, isValidationError]
        · have h409 : r.status ≠ 409 := by omega
          simp [update_server_port, _request, catching, raised, Except.bind, hs, h409] at he
  · intro p hp
    refine ⟨"port: Input should be in range 1 to 65535", ?_⟩
    simp only [ServerPort.validate]
    rw [if_pos hp]
  · intro apiUrl jf n pw p outcome hp
    have hv : AccessKeyCreateRequest.validate (some n) (some pw) (some p) =
        Except.error "port: Input should be in range 0 to 65535" := by
      simp only [AccessKeyCreateRequest.validate]
      rw [if_pos hp]
    simp [create_access_key, hv, catching, isPydanticValidationError, excStr]

theorem claim_C4_witness :
    (∃ m, ServerPort.validate 70000 = Except.error m) ∧
    create_access_key "https://h" false (some "User1") (some "pw") (some 70000)
        (HttpResult.response ⟨201, none, ""⟩) =
      ([], Except.error (Exc.validationError
        "Failed to create access key: port: Input should be in range 0 to 65535")) :=
  ⟨claim_C4.2.2.1 70000 (by decide),
   claim_C4.2.2.2 "https://h" false "User1" "pw" 70000
     (HttpResult.response ⟨201, none, ""⟩) (by decide)⟩

theorem aux_length_pos (s : String) (h : s ≠ "") : ¬ s.length < 1 := by
  have hd : s.data ≠ [] := fun hz => h (String.ext hz)
  have h2 : s.data.length ≠ 0 := fun hz => hd (List.length_eq_zero.mp hz)
  have hl : s.length = s.data.length := rfl
  omega

/-- C5 (counterexample): `create_access_key(name="User1")` does not
serialize the single non-null argument: under pydantic v2 all three
fields of `AccessKeyCreateRequest` are required (`Optional` without a
default does not make a field optional), so the call raises
`ValidationError` before any request is dispatched — even though the
server stood ready with a well-formed 201 response. -/
theorem claim_C5_counterexample :
    create_access_key "https://h" false (some "User1") none none
        (HttpResult.response ⟨201,
          some (accessKeyObj "id0" "User1" "pw" 80 "aes" "ss://u"), ""⟩) =
      ([], Except.error (Exc.validationError
        "Failed to create access key: Field required")) := by
  simp [create_access_key, AccessKeyCreateRequest.validate, catching,
    isPydanticValidationError, excStr]

/-- C5 (amended): `create_access_key` sends no request body (not an
empty object) when all three of name/password/port are null, and given a
201 response with all required fields returns a populated `AccessKey`;
when all three are non-null (with port in [0, 65535]) all three are
serialized into the body; but when a proper non-empty subset of the
arguments is null, the operation raises `ValidationError` before any
network call, because the request schema requires all three fields. -/
theorem claim_C5 :
    (∀ (apiUrl : String) (jf : Bool) (outcome : HttpResult),
      (create_access_key apiUrl jf none none none outcome).1 =
        [⟨"POST", apiUrl ++ "/" ++ "access-keys", none⟩]) ∧
    (∀ (apiUrl id name pw : String) (port : Int) (method au text : String),
      pw ≠ "" → au ≠ "" → 1 ≤ port → port ≤ 65535 →
      create_access_key apiUrl false none none none
          (HttpResult.response ⟨201, some (accessKeyObj id name pw port method au), text⟩) =
        ([⟨"POST", apiUrl ++ "/" ++ "access-keys", none⟩],
         Except.ok (ApiResult.value ⟨id, name, pw, port, method, au⟩))) ∧
    (∀ (apiUrl : String) (jf : Bool) (name password : Option String)
        (portArg : Option Int) (outcome : HttpResult),
      (name.isSome || password.isSome || portArg.isSome) = true →
      ¬(name.isSome = true ∧ password.isSome = true ∧ portArg.isSome = true) →
      create_access_key apiUrl jf name password portArg outcome =
        ([], Except.error (Exc.validationError
          "Failed to create access key: Field required"))) ∧
    (∀ (apiUrl : String) (jf : Bool) (n pw : String) (p : Int) (outcome : HttpResult),
      0 ≤ p → p ≤ 65535 →
      (create_access_key apiUrl jf (some n) (some pw) (some p) outcome).1 =
        [⟨"POST", apiUrl ++ "/" ++ "access-keys",
          some (Json.obj [("name", Json.str n), ("password", Json.str pw),
            ("port", Json.int p)])⟩]) := by
  refine ⟨?_, ?_, ?_, ?_⟩
  · intro apiUrl jf outcome
    cases outcome <;> rfl
  · intro apiUrl id name pw port method au text hpw hau h1 h2
    have hval : AccessKey.validate [("id", Json.str id), ("name", Json.str name),
        ("password", Json.str pw), ("port", Json.int port),
        ("method", Json.str method), ("accessUrl", Json.str au)] =
        Except.ok ⟨id, name, pw, port, method, au⟩ := by
      rw [accessKey_validate_fields, if_neg (aux_length_pos pw hpw),
        if_neg (aux_length_pos au hau), if_neg (by omega)]
    simp [create_access_key, accessKeyObj, _request, _parse_response, hval, catching,
      Except.bind]
  · intro apiUrl jf name password portArg outcome hg hna
    rcases name with _ | n <;> rcases password with _ | p <;> rcases portArg with _ | prt
    · simp at hg
    · simp [create_access_key, AccessKeyCreateRequest.validate, catching,
        isPydanticValidationError, excStr]
    · simp [create_access_key, AccessKeyCreateRequest.validate, catching,
        isPydanticValidationError, excStr]
    · simp [create_access_key, AccessKeyCreateRequest.validate, catching,
        isPydanticValidationError, excStr]
    · simp [create_access_key, AccessKeyCreateRequest.validate, catching,
        isPydanticValidationError, excStr]
    · simp [create_access_key, AccessKeyCreateRequest.validate, catching,
        isPydanticValidationError, excStr]
    · simp [create_access_key, AccessKeyCreateRequest.validate, catching,
        isPydanticValidationError, excStr]
    · exact absurd ⟨rfl, rfl, rfl⟩ hna
  · intro apiUrl jf n pw p outcome h0 h1
    have hv : AccessKeyCreateRequest.validate (some n) (some pw) (some p) =
        Except.ok (Json.obj [("name", Json.str n), ("password", Json.str pw),
          ("port", Json.int p)]) := by
      simp only [AccessKeyCreateRequest.validate]
      rw [if_neg (by omega)]
    cases outcome <;> simp [create_access_key, hv, _request]

theorem claim_C5_witness :
    create_access_key "https://h" false none none none
        (HttpResult.response ⟨201,
          some (accessKeyObj "id0" "User1" "pw" 80 "aes" "ss://u"), ""⟩) =
      ([⟨"POST", "https://h" ++ "/" ++ "access-keys", none⟩],
       Except.ok (ApiResult.value ⟨"id0", "User1", "pw", 80, "aes", "ss://u"⟩)) ∧
    create_access_key "https://h" false none (some "pw") none
        (HttpResult.response ⟨201,
          some (accessKeyObj "id0" "User1" "pw" 80 "aes" "ss://u"), ""⟩) =
      ([], Except.error (Exc.validationError
        "Failed to create access key: Field required")) ∧
    (create_access_key "https://h" false (some "User1") (some "pw") (some 1234)
        (HttpResult.response ⟨201,
          some (accessKeyObj "id0" "User1" "pw" 80 "aes" "ss://u"), ""⟩)).1 =
      [⟨"POST", "https://h" ++ "/" ++ "access-keys",
        some (Json.obj [("name", Json.str "User1"), ("password", Json.str "pw"),
          ("port", Json.int 1234)])⟩] :=
  ⟨claim_C5.2.1 "https://h" "id0" "User1" "pw" 80 "aes" "ss://u" ""
      (by decide) (by decide) (by decide) (by decide),
   claim_C5.2.2.1 "https://h" false none (some "pw") none
      (HttpResult.response ⟨201,
        some (accessKeyObj "id0" "User1" "pw" 80 "aes" "ss://u"), ""⟩)
      (by decide) (by decide),
   claim_C5.2.2.2 "https://h" false "User1" "pw" 1234
      (HttpResult.response ⟨201,
        some (accessKeyObj "id0" "User1" "pw" 80 "aes" "ss://u"), ""⟩)
      (by decide) (by decide)⟩

/-- C6: for every public operation, a transport-level failure (the
session call raising a `requests.RequestException`, or a 4xx/5xx status
turned fatal by `raise_for_status`) surfaces as `APIError` — the message
carrying the target URL and the underlying cause — and never as
`ValidationError`.  In particular the
`except (PydanticValidationError, KeyError, requests.RequestException)`
clause inside `create_access_key` does not catch the `APIError` re-raised
by `_request`, so it does not reclassify a transport failure as a
validation error. -/
theorem claim_C6 (apiUrl keyId : String) (jf : Bool) (port limit : Int)
    (msg : String) (r : Response) :
    (raised (get_server_info apiUrl jf (HttpResult.netFail msg)).2 =
      some (Exc.apiError
        ("Request to " ++ (apiUrl ++ "/" ++ "server") ++ " failed: " ++ msg))) ∧
    (raised (create_access_key apiUrl jf none none none (HttpResult.netFail msg)).2 =
      some (Exc.apiError
        ("Request to " ++ (apiUrl ++ "/" ++ "access-keys") ++ " failed: " ++ msg))) ∧
    (raised (get_access_keys apiUrl jf (HttpResult.netFail msg)).2 =
      some (Exc.apiError
        ("Request to " ++ (apiUrl ++ "/" ++ "access-keys") ++ " failed: " ++ msg))) ∧
    (raised (delete_access_key apiUrl keyId (HttpResult.netFail msg)).2 =
      some (Exc.apiError
        ("Request to " ++ (apiUrl ++ "/" ++ ("access-keys/" ++ keyId)) ++
          " failed: " ++ msg))) ∧
    (raised (update_server_port apiUrl port (HttpResult.netFail msg)).2 =
      some (Exc.apiError ("Failed to update server port: " ++
        ("Request to " ++ (apiUrl ++ "/" ++ "server/port-for-new-access-keys") ++
          " failed: " ++ msg)))) ∧
    (raised (set_access_key_data_limit apiUrl keyId limit (HttpResult.netFail msg)).2 =
      some (Exc.apiError
        ("Failed to set data limit for access key with ID " ++ keyId ++ ": " ++
          ("Request to " ++ (apiUrl ++ "/" ++ ("access-keys/" ++ keyId ++ "/data-limit")) ++
            " failed: " ++ msg)))) ∧
    (raised (get_metrics apiUrl jf (HttpResult.netFail msg)).2 =
      some (Exc.apiError
        ("Request to " ++ (apiUrl ++ "/" ++ "metrics/transfer") ++ " failed: " ++ msg))) ∧
    (∀ m, isValidationError (Exc.apiError m) = false) ∧
    (400 ≤ r.status → r.status < 600 →
      (∃ m, raised (get_server_info apiUrl jf (HttpResult.response r)).2 =
        some (Exc.apiError m)) ∧
      (∃ m, raised (create_access_key apiUrl jf none none none
        (HttpResult.response r)).2 = some (Exc.apiError m)) ∧
      (∃ m, raised (get_access_keys apiUrl jf (HttpResult.response r)).2 =
        some (Exc.apiError m)) ∧
      (∃ m, raised (get_metrics apiUrl jf (HttpResult.response r)).2 =
        some (Exc.apiError m))) := by
  refine ⟨rfl, rfl, rfl, rfl, rfl, rfl, rfl, fun m => rfl, ?_⟩
  intro h1 h2
  have hs : 400 ≤ r.status ∧ r.status < 600 := ⟨h1, h2⟩
  refine ⟨⟨"Request to " ++ (apiUrl ++ "/" ++ "server") ++ " failed: " ++
      toString r.status ++ " Client Error", ?_⟩,
    ⟨"Request to " ++ (apiUrl ++ "/" ++ "access-keys") ++ " failed: " ++
      toString r.status ++ " Client Error", ?_⟩,
    ⟨"Request to " ++ (apiUrl ++ "/" ++ "access-keys") ++ " failed: " ++
      toString r.status ++ " Client Error", ?_⟩,
    ⟨"Request to " ++ (apiUrl ++ "/" ++ "metrics/transfer") ++ " failed: " ++
      toString r.status ++ " Client Error", ?_⟩⟩ <;>
    simp [get_server_info, create_access_key, get_access_keys, get_metrics,
      _request, catching, raised, Except.bind, hs, isPydanticValidationError,
      isKeyError, isRequestsRequestException]

theorem claim_C6_witness :
    raised (get_server_info "https://h" false
        (HttpResult.netFail "connection refused")).2 =
      some (Exc.apiError
        ("Request to " ++ ("https://h" ++ "/" ++ "server") ++ " failed: " ++
          "connection refused")) ∧
    (∃ m, raised (create_access_key "https://h" false none none none
        (HttpResult.response ⟨500, none, "oops"⟩)).2 = some (Exc.apiError m)) :=
  ⟨(claim_C6 "https://h" "k" false 443 1000 "connection refused"
      ⟨500, none, "oops"⟩).1,
   ((claim_C6 "https://h" "k" false 443 1000 "connection refused"
      ⟨500, none, "oops"⟩).2.2.2.2.2.2.2.2 (by decide) (by decide)).2.1⟩

/-- C7: an `AccessKey` response payload with an empty `password`, an
empty `accessUrl`, or a missing `accessUrl` fails schema validation, and
`create_access_key` raises `ValidationError` rather than returning a
value. -/
theorem claim_C7 (apiUrl : String) (jf : Bool) (id name pw : String) (port : Int)
    (method au text : String) :
    (raised (create_access_key apiUrl jf none none none
        (HttpResult.response ⟨201,
          some (accessKeyObj id name "" port method au), text⟩)).2 =
      some (Exc.validationError
        "Validation error: password: Value should have at least 1 item")) ∧
    (pw ≠ "" →
      raised (create_access_key apiUrl jf none none none
        (HttpResult.response ⟨201,
          some (accessKeyObj id name pw port method ""), text⟩)).2 =
      some (Exc.validationError
        "Validation error: accessUrl: Value should have at least 1 item")) ∧
    (raised (create_access_key apiUrl jf none none none
        (HttpResult.response ⟨201,
          some (Json.obj [("id", Json.str id), ("name", Json.str name),
            ("password", Json.str pw), ("port", Json.int port),
            ("method", Json.str method)]), text⟩)).2 =
      some (Exc.validationError "Validation error: Field required")) := by
  refine ⟨?_, ?_, ?_⟩
  · simp [create_access_key, accessKeyObj, _request, _parse_response,
      accessKey_validate_fields, catching, Except.bind, raised,
      isPydanticValidationError, isKeyError, isRequestsRequestException]
  · intro hpw
    have hval : AccessKey.validate [("id", Json.str id), ("name", Json.str name),
        ("password", Json.str pw), ("port", Json.int port),
        ("method", Json.str method), ("accessUrl", Json.str "")] =
        Except.error "accessUrl: Value should have at least 1 item" := by
      rw [accessKey_validate_fields, if_neg (aux_length_pos pw hpw)]
      rfl
    simp [create_access_key, accessKeyObj, _request, _parse_response, hval,
      catching, Except.bind, raised, isPydanticValidationError, isKeyError,
      isRequestsRequestException]
  · simp [create_access_key, _request, _parse_response, AccessKey.validate,
      getStr, getField, catching, Except.bind, raised,
      isPydanticValidationError, isKeyError, isRequestsRequestException]

theorem claim_C7_witness :
    raised (create_access_key "https://h" false none none none
        (HttpResult.response ⟨201,
          some (accessKeyObj "id0" "k" "pw" 80 "aes" ""), ""⟩)).2 =
      some (Exc.validationError
        "Validation error: accessUrl: Value should have at least 1 item") :=
  (claim_C7 "https://h" false "id0" "k" "pw" 80 "aes" "u" "").2.1 (by decide)

/-- C8: for every `TransferMetrics` mapping from user-id strings to
integers: if any value is negative, validation fails; if every key is a
non-empty string and every value is non-negative, validation succeeds and
returns the mapping exactly as given (same keys, same values, same
order). -/
theorem claim_C8 (m : List (String × Int)) :
    ((∃ kv, kv ∈ m ∧ kv.2 < 0) →
      ∃ msg, Metrics.validateMapping m = Except.error msg) ∧
    ((∀ kv, kv ∈ m → 1 ≤ kv.1.length) → (∀ kv, kv ∈ m → 0 ≤ kv.2) →
      Metrics.validateMapping m = Except.ok m) := by
  constructor
  · rintro ⟨kv, hmem, hneg⟩
    by_cases ha : m.any (fun kv => decide (kv.1.length < 1)) = true
    · refine ⟨"bytesTransferredByUserId: key should have at least 1 character", ?_⟩
      simp only [Metrics.validateMapping]
      rw [if_pos ha]
    · rcases hf : m.find? (fun kv => decide (kv.2 < 0)) with _ | kv2
      · exact absurd (by simpa using List.find?_eq_none.mp hf kv hmem) (by simpa using hneg)
      · refine ⟨"Transferred bytes for user " ++ kv2.1 ++ " must be non-negative", ?_⟩
        simp only [Metrics.validateMapping]
        rw [if_neg ha, hf]
  · intro hk hv
    have ha : m.any (fun kv => decide (kv.1.length < 1)) = false := by
      rw [List.any_eq_false]
      intro kv hmem
      have := hk kv hmem
      simp only [decide_eq_true_eq]
      omega
    have hf : m.find? (fun kv => decide (kv.2 < 0)) = none := by
      rw [List.find?_eq_none]
      intro kv hmem
      have := hv kv hmem
      simp only [decide_eq_true_eq]
      omega
    have ha' : ¬ (m.any (fun kv => decide (kv.1.length < 1)) = true) := by
      rw [ha]
      exact Bool.false_ne_true
    simp only [Metrics.validateMapping]
    rw [if_neg ha', hf]

theorem claim_C8_witness :
    (∃ msg, Metrics.validateMapping [("user1", -100)] = Except.error msg) ∧
    Metrics.validateMapping [("user1", 12345), ("user2", 0)] =
      Except.ok [("user1", 12345), ("user2", 0)] :=
  ⟨(claim_C8 [("user1", -100)]).1 ⟨("user1", -100), by decide, by decide⟩,
   (claim_C8 [("user1", 12345), ("user2", 0)]).2
     (by decide) (by decide)⟩

/-- C9: every `Server` payload with `createdTimestampMs ≥ 0`,
`portForNewAccessKeys ∈ [1, 65535]` and the remaining required fields
present with the right types validates successfully, and every field of
the validated record equals the corresponding input field; through
`get_server_info` on a 200 response the same record is returned. -/
theorem claim_C9 (name serverId : String) (metricsEnabled : Bool) (created port : Int)
    (h0 : 0 ≤ created) (h1 : 1 ≤ port) (h2 : port ≤ 65535) :
    Server.validate [("name", Json.str name), ("serverId", Json.str serverId),
        ("metricsEnabled", Json.bool metricsEnabled),
        ("createdTimestampMs", Json.int created),
        ("portForNewAccessKeys", Json.int port)] =
      Except.ok ⟨name, serverId, metricsEnabled, created, port⟩ ∧
    (∀ (apiUrl text : String),
      (get_server_info apiUrl false (HttpResult.response ⟨200,
          some (serverObj name serverId metricsEnabled created port), text⟩)).2 =
        Except.ok (ApiResult.value ⟨name, serverId, metricsEnabled, created, port⟩)) := by
  have hval : Server.validate [("name", Json.str name), ("serverId", Json.str serverId),
      ("metricsEnabled", Json.bool metricsEnabled),
      ("createdTimestampMs", Json.int created),
      ("portForNewAccessKeys", Json.int port)] =
      Except.ok ⟨name, serverId, metricsEnabled, created, port⟩ := by
    rw [server_validate_fields, if_neg (by omega), if_neg (by omega)]
  refine ⟨hval, ?_⟩
  intro apiUrl text
  simp [get_server_info, serverObj, _request, _parse_response, hval, catching,
    Except.bind]

theorem claim_C9_witness :
    Server.validate [("name", Json.str "Test Server"), ("serverId", Json.str "server-id"),
        ("metricsEnabled", Json.bool true),
        ("createdTimestampMs", Json.int 1234567890),
        ("portForNewAccessKeys", Json.int 443)] =
      Except.ok ⟨"Test Server", "server-id", true, 1234567890, 443⟩ :=
  (claim_C9 "Test Server" "server-id" true 1234567890 443
    (by decide) (by decide) (by decide)).1

/-- C10: with the canonical-text output mode (`json_format=True`), the
rendered text of a validated `AccessKey` masks the `SecretStr` fields
`password` and `accessUrl`: two runs on 201 responses that differ only in
those secret values (and the raw response text) produce identical output,
so the plaintext secrets never appear in the canonical text form. -/
theorem claim_C10 (apiUrl id name : String) (port : Int) (method : String)
    (pw1 pw2 au1 au2 text1 text2 : String)
    (hpw1 : pw1 ≠ "") (hpw2 : pw2 ≠ "") (hau1 : au1 ≠ "") (hau2 : au2 ≠ "")
    (h1 : 1 ≤ port) (h2 : port ≤ 65535) :
    create_access_key apiUrl true none none none
        (HttpResult.response ⟨201,
          some (accessKeyObj id name pw1 port method au1), text1⟩) =
      create_access_key apiUrl true none none none
        (HttpResult.response ⟨201,
          some (accessKeyObj id name pw2 port method au2), text2⟩) := by
  have hval1 : AccessKey.validate [("id", Json.str id), ("name", Json.str name),
      ("password", Json.str pw1), ("port", Json.int port),
      ("method", Json.str method), ("accessUrl", Json.str au1)] =
      Except.ok ⟨id, name, pw1, port, method, au1⟩ := by
    rw [accessKey_validate_fields, if_neg (aux_length_pos pw1 hpw1),
      if_neg (aux_length_pos au1 hau1), if_neg (by omega)]
  have hval2 : AccessKey.validate [("id", Json.str id), ("name", Json.str name),
      ("password", Json.str pw2), ("port", Json.int port),
      ("method", Json.str method), ("accessUrl", Json.str au2)] =
      Except.ok ⟨id, name, pw2, port, method, au2⟩ := by
    rw [accessKey_validate_fields, if_neg (aux_length_pos pw2 hpw2),
      if_neg (aux_length_pos au2 hau2), if_neg (by omega)]
  simp [create_access_key, accessKeyObj, _request, _parse_response, hval1, hval2,
    catching, Except.bind, AccessKey.model_dump_json, maskSecret,
    hpw1, hpw2, hau1, hau2]

theorem claim_C10_witness :
    create_access_key "https://h" true none none none
        (HttpResult.response ⟨201,
          some (accessKeyObj "k1" "Test Key" "secret-a" 1234 "aes-256-cfb"
            "ss://secret-url-a"), "raw-a"⟩) =
      create_access_key "https://h" true none none none
        (HttpResult.response ⟨201,
          some (accessKeyObj "k1" "Test Key" "secret-b" 1234 "aes-256-cfb"
            "ss://secret-url-b"), "raw-b"⟩) :=
  claim_C10 "https://h" "k1" "Test Key" 1234 "aes-256-cfb"
    "secret-a" "secret-b" "ss://secret-url-a" "ss://secret-url-b" "raw-a" "raw-b"
    (by decide) (by decide) (by decide) (by decide) (by decide) (by decide)

end PyOutline
